import Mathlib

/-!
Verification development for the YooKassa recurring-billing scheduler and the
saved-payment-method CRUD/HTTP layer of the Telegram-bot repository.

Shallow embedding conventions:
* timestamps are integers counting seconds (a Python `timedelta(days=d)` is
  `d * 86400` seconds);
* money amounts are integers (kopeks);
* database tables are lists of records; a SQL `WHERE` clause is a `List.filter`
  and `ORDER BY created_at DESC` is a sort by the relation
  `fun a b => b.created_at ≤ a.created_at`;
* a Python coroutine that may raise is a function into `Except Unit _`;
* Python truthiness of an optional integer field (`x or default`) is rendered
  explicitly: `none` and `some 0` are falsy, everything else truthy;
* outbound Telegram notifications are recorded as events in a trace list (the
  `_notify_*` helpers swallow every send error, so from the scheduler's view a
  notification attempt always "happens" and never raises);
* calls into the external charge gateway are recorded as `ChargeCall` events.
-/

namespace RecurringBot

/-- The `SubscriptionStatus` enumeration from the database models
(only `active` matters to the scheduler). -/
inductive SubscriptionStatus where
  | pending
  | active
  | expired
  | cancelled
deriving DecidableEq, Repr

/-- The owning user of a subscription, as eagerly loaded by
`selectinload(Subscription.user)`.  `telegram_id` may be absent. -/
structure User where
  id : Int
  telegram_id : Option Int
deriving DecidableEq, Repr

/-- A `Subscription` row, restricted to the fields read by
`yookassa_recurring_service.py`.  `user` is the eagerly-resolved owning user
(`none` models an unresolvable user reference). `expires_at` is a timestamp
in seconds; `autopay_days_before` is the nullable lead-time column. -/
structure Subscription where
  id : Int
  user : Option User
  status : SubscriptionStatus
  expires_at : Option Int
  autopay_enabled : Bool
  autopay_days_before : Option Int
  tariff_id : Option Int
deriving DecidableEq, Repr

/-- A row of the `yookassa_saved_payment_methods` table
(migration `0005_add_yookassa_recurring.py`; the `payment_method_id` column
carries a UNIQUE constraint). -/
structure YooKassaSavedPaymentMethod where
  id : Int
  user_id : Int
  payment_method_id : String
  payment_method_type : Option String
  card_first_six : Option String
  card_last_four : Option String
  card_type : Option String
  card_expiry_month : Option String
  card_expiry_year : Option String
  title : Option String
  is_active : Bool
  created_at : Int
  updated_at : Int
  source_payment_id : Option Int
deriving DecidableEq, Repr

/-- Python `sub.autopay_days_before or 3` from
`_get_subscriptions_for_recurring`: `None` and `0` are falsy, so both fall
back to the default of 3 days; any other stored value (including a negative
one) is used as is. -/
def days_before_of (d : Option Int) : Int :=
  match d with
  | none => 3
  | some v => if v = 0 then 3 else v

/-- The SQL `WHERE` clause of `_get_subscriptions_for_recurring`:
`status == ACTIVE`, `autopay_enabled == True`, `expires_at IS NOT NULL`. -/
def recurringQueryFilter (sub : Subscription) : Bool :=
  sub.status == .active && sub.autopay_enabled && sub.expires_at.isSome

/-- The Python post-filter of `_get_subscriptions_for_recurring`: skip rows
without `expires_at`, compute `threshold = expires_at - timedelta(days=days_before)`
and keep the row when `now >= threshold`. -/
def leadTimeFilter (now : Int) (sub : Subscription) : Bool :=
  match sub.expires_at with
  | none => false
  | some e =>
    let days_before := days_before_of sub.autopay_days_before
    let threshold := e - days_before * 86400
    decide (threshold ≤ now)

/-- Embeds `_get_subscriptions_for_recurring`: the eligibility selector, as the
composition of the SQL `WHERE` clause over the subscription table and the
Python lead-time loop. -/
def get_subscriptions_for_recurring (table : List Subscription) (now : Int) :
    List Subscription :=
  (table.filter recurringQueryFilter).filter (leadTimeFilter now)

/-- The ordering relation used by `ORDER BY created_at DESC`: `a` comes
before `b` when `a` was created no earlier than `b`. -/
def newestFirst (a b : YooKassaSavedPaymentMethod) : Prop :=
  b.created_at ≤ a.created_at

instance : DecidableRel newestFirst := fun a b =>
  inferInstanceAs (Decidable (b.created_at ≤ a.created_at))

instance : IsTotal YooKassaSavedPaymentMethod newestFirst :=
  ⟨fun a b => le_total b.created_at a.created_at⟩

instance : IsTrans YooKassaSavedPaymentMethod newestFirst :=
  ⟨fun _ _ _ hab hbc => le_trans hbc hab⟩

/-- Embeds `get_active_saved_methods` from
`app/database/crud/yookassa_saved_payment_method.py`: select rows with
`user_id == user_id AND is_active == True`, ordered by `created_at DESC`. -/
def get_active_saved_methods (table : List YooKassaSavedPaymentMethod)
    (user_id : Int) : List YooKassaSavedPaymentMethod :=
  List.insertionSort newestFirst
    (table.filter (fun m => m.user_id == user_id && m.is_active))

/-- Embeds `get_saved_method_by_payment_method_id`: select by gateway token and apply
`scalar_one_or_none` (`none` for no row, the row if unique, an error raised
when several rows match). -/
def get_saved_method_by_payment_method_id
    (table : List YooKassaSavedPaymentMethod) (payment_method_id : String) :
    Except Unit (Option YooKassaSavedPaymentMethod) :=
  match table.filter (fun m => m.payment_method_id == payment_method_id) with
  | [] => .ok none
  | [m] => .ok (some m)
  | _ => .error ()

/-- Embeds `create_saved_payment_method`: build a new row with `is_active=True` and
attempt to commit it.  The UNIQUE constraint on `payment_method_id`
(migration `0005`) makes the commit fail with `IntegrityError` exactly when
the token is already stored; the code then rolls back (table unchanged) and
returns the existing record via `get_saved_method_by_payment_method_id`.
`newId` models the autoincrement id and `now` the server-default timestamps. -/
def create_saved_payment_method (table : List YooKassaSavedPaymentMethod)
    (user_id : Int) (payment_method_id : String)
    (payment_method_type : Option String) (card_first_six : Option String)
    (card_last_four : Option String) (card_type : Option String)
    (card_expiry_month : Option String) (card_expiry_year : Option String)
    (title : Option String) (source_payment_id : Option Int)
    (newId : Int) (now : Int) :
    List YooKassaSavedPaymentMethod × Except Unit (Option YooKassaSavedPaymentMethod) :=
  let method : YooKassaSavedPaymentMethod :=
    { id := newId
      user_id := user_id
      payment_method_id := payment_method_id
      payment_method_type := payment_method_type
      card_first_six := card_first_six
      card_last_four := card_last_four
      card_type := card_type
      card_expiry_month := card_expiry_month
      card_expiry_year := card_expiry_year
      title := title
      is_active := true
      created_at := now
      updated_at := now
      source_payment_id := source_payment_id }
  if table.any (fun m => m.payment_method_id == payment_method_id) then
    (table, get_saved_method_by_payment_method_id table payment_method_id)
  else
    (table ++ [method], .ok (some method))

/-- Embeds `deactivate_saved_method`: `UPDATE ... SET is_active = false,
updated_at = now() WHERE id == method_id`. -/
def deactivate_saved_method (table : List YooKassaSavedPaymentMethod)
    (method_id : Int) (now : Int) : List YooKassaSavedPaymentMethod :=
  table.map (fun m =>
    if m.id == method_id then { m with is_active := false, updated_at := now } else m)

/-- Response body of the cabinet DELETE route. -/
structure DeleteSavedMethodResponse where
  success : Bool
  message : String
deriving DecidableEq, Repr

/-- Embeds `delete_saved_payment_method` from
`app/cabinet/routes/saved_payment_methods.py`: fetch the requesting user's
active methods, look the id up among them (`next(..., None)`), raise HTTP 404
when absent, otherwise deactivate.  The resulting table is returned alongside
the HTTP outcome (the table is untouched on the 404 path). -/
def delete_saved_payment_method (table : List YooKassaSavedPaymentMethod)
    (requester_id : Int) (method_id : Int) (now : Int) :
    List YooKassaSavedPaymentMethod × Except Nat DeleteSavedMethodResponse :=
  let methods := get_active_saved_methods table requester_id
  match methods.find? (fun m => m.id == method_id) with
  | none => (table, .error 404)
  | some _ =>
    (deactivate_saved_method table method_id now,
     .ok ⟨true, "Payment method successfully unlinked"⟩)

/-- One call into `PaymentService.create_recurring_charge` (the external
charge gateway), recorded with the arguments the scheduler supplies. -/
structure ChargeCall where
  user_id : Int
  saved_method_id : Int
  amount_kopeks : Int
deriving DecidableEq, Repr

/-- The normalized gateway result dictionary; only its `status` key is read
(`result.get('status')`, which may be absent). -/
structure ChargeResult where
  status : Option String
deriving DecidableEq, Repr

/-- One notification attempt made through the `_notify_*` helpers (which
swallow every delivery error, so sending never raises back into the
scheduler). -/
inductive NotifyEvent where
  | no_payment_method (user_id : Int)
  | recurring_success (user_id : Int) (amount_kopeks : Int)
  | recurring_failure (user_id : Int) (amount_kopeks : Int)
deriving DecidableEq, Repr

/-- The external collaborators of one scheduler pass:
the saved-payment-method table (read through `get_active_saved_methods`),
the tariff price lookup (`get_tariff_by_id(...).price_kopeks`, `none` when the
tariff row is missing), the configured fallback
`settings.get_period_price_kopeks(30)`, and the charge gateway
(`create_recurring_charge`), which may raise (`Except.error`) or return
`None` (`Except.ok none`). -/
structure Env where
  methods_table : List YooKassaSavedPaymentMethod
  tariff_price : Int → Option Int
  period_price_30 : Int
  create_recurring_charge : Int → Int → Int → Except Unit (Option ChargeResult)

/-- Embeds `_calculate_renewal_cost`: when the subscription carries a truthy
`tariff_id` and the tariff row exists, its `price_kopeks` is returned as is
(no positivity check on this path); otherwise the configured 30-day period
price is returned when positive, else `None`.  The surrounding
`try/except` returns `None` on lookup errors, so the model is total. -/
def calculate_renewal_cost (env : Env) (sub : Subscription) : Option Int :=
  let fallback : Option Int :=
    if 0 < env.period_price_30 then some env.period_price_30 else none
  match sub.tariff_id with
  | none => fallback
  | some tid =>
    if tid = 0 then fallback
    else
      match env.tariff_price tid with
      | some price_kopeks => some price_kopeks
      | none => fallback

instance {ε α : Type} [DecidableEq ε] [DecidableEq α] : DecidableEq (Except ε α) :=
  fun a b =>
    match a, b with
    | .error e, .error f =>
      if h : e = f then .isTrue (congrArg Except.error h)
      else .isFalse (fun c => h (Except.error.inj c))
    | .error _, .ok _ => .isFalse Except.noConfusion
    | .ok _, .error _ => .isFalse Except.noConfusion
    | .ok x, .ok y =>
      if h : x = y then .isTrue (congrArg Except.ok h)
      else .isFalse (fun c => h (Except.ok.inj c))

/-- Trace of `_process_single_recurring` for one subscription: the returned
outcome string (or the exception it let escape), the notification attempts,
and the gateway calls it made. -/
structure ItemTrace where
  outcome : Except Unit String
  notifications : List NotifyEvent
  charge_calls : List ChargeCall
deriving DecidableEq, Repr

/-- Embeds `_process_single_recurring`: skip when the user reference is missing;
notify-and-return `no_method` when the user has no active saved method;
skip when the renewal cost is `None` or non-positive (`not amount_kopeks or
amount_kopeks <= 0`); otherwise charge the most recent saved method
(`saved_methods[0]`).  A raise from the gateway escapes (after the call was
made); a result with `status == 'succeeded'` yields `charged` plus a success
notification; anything else (including `None` or a missing status) yields
`failed` plus a failure notification. -/
def process_single_recurring (env : Env) (sub : Subscription) : ItemTrace :=
  match sub.user with
  | none => ⟨.ok "skipped", [], []⟩
  | some user =>
    match get_active_saved_methods env.methods_table user.id with
    | [] => ⟨.ok "no_method", [.no_payment_method user.id], []⟩
    | saved_method :: _ =>
      match calculate_renewal_cost env sub with
      | none => ⟨.ok "skipped", [], []⟩
      | some amount_kopeks =>
        if amount_kopeks ≤ 0 then ⟨.ok "skipped", [], []⟩
        else
          let call : ChargeCall := ⟨user.id, saved_method.id, amount_kopeks⟩
          match env.create_recurring_charge user.id saved_method.id amount_kopeks with
          | .error e => ⟨.error e, [], [call]⟩
          | .ok result =>
            match result with
            | some r =>
              if r.status == some "succeeded" then
                ⟨.ok "charged", [.recurring_success user.id amount_kopeks], [call]⟩
              else
                ⟨.ok "failed", [.recurring_failure user.id amount_kopeks], [call]⟩
            | none => ⟨.ok "failed", [.recurring_failure user.id amount_kopeks], [call]⟩

/-- The per-pass counter dictionary of `process_recurring_charges`. -/
structure RunStats where
  checked : Nat
  charged : Nat
  no_method : Nat
  failed : Nat
  skipped : Nat
deriving DecidableEq, Repr

/-- The per-item counter update of the loop body in
`process_recurring_charges`: a returned `'charged'` / `'no_method'` /
`'failed'` bumps its counter, any other returned string bumps `skipped`, and
an exception caught by the per-item `except` bumps `failed`. -/
def classify (stats : RunStats) (r : Except Unit String) : RunStats :=
  match r with
  | .error _ => { stats with failed := stats.failed + 1 }
  | .ok result =>
    if result = "charged" then { stats with charged := stats.charged + 1 }
    else if result = "no_method" then { stats with no_method := stats.no_method + 1 }
    else if result = "failed" then { stats with failed := stats.failed + 1 }
    else { stats with skipped := stats.skipped + 1 }

/-- Aggregate outcome of one pass: the statistics dictionary plus the traced
notification attempts and gateway calls, in processing order. -/
structure PassResult where
  stats : RunStats
  notifications : List NotifyEvent
  charge_calls : List ChargeCall
deriving DecidableEq, Repr

/-- The `for subscription in subscriptions` loop of
`process_recurring_charges`, threading the accumulated statistics and
traces. -/
def processLoop (env : Env) (subs : List Subscription) (acc : PassResult) :
    PassResult :=
  match subs with
  | [] => acc
  | sub :: rest =>
    let t := process_single_recurring env sub
    processLoop env rest
      ⟨classify acc.stats t.outcome,
       acc.notifications ++ t.notifications,
       acc.charge_calls ++ t.charge_calls⟩

/-- Embeds `process_recurring_charges`: the selector result (the awaited
`_get_subscriptions_for_recurring`, which either raises or returns the
eligible list) is the input.  When it raises, the outer `except` swallows the
error and the zero-initialized statistics are returned; otherwise `checked`
is set to the number of eligible subscriptions and the loop runs. -/
def process_recurring_charges (env : Env)
    (selector : Except Unit (List Subscription)) : PassResult :=
  match selector with
  | .error _ => ⟨⟨0, 0, 0, 0, 0⟩, [], []⟩
  | .ok subscriptions =>
    processLoop env subscriptions ⟨⟨subscriptions.length, 0, 0, 0, 0⟩, [], []⟩

/-! ### Theorems -/

/-- An active, autopay-enabled subscription with `expires_at` set and the
lead-time column set to `0` days. -/
def subLeadZero : Subscription :=
  ⟨1, none, .active, some 864000, true, some 0, none⟩

/-- C1 counterexample: the claim demands that a subscription with lead-time
`D = 0` days is NOT selected at `now = E - D - 1` second, but the selector
does select it there (the code's `autopay_days_before or 3` treats a stored
`0` as unset and uses the 3-day default). -/
theorem c1_lead_zero_selected_counterexample :
    subLeadZero.status = .active ∧
    subLeadZero.autopay_enabled = true ∧
    subLeadZero.expires_at = some 864000 ∧
    subLeadZero.autopay_days_before = some 0 ∧
    get_subscriptions_for_recurring [subLeadZero] (864000 - 0 * 86400 - 1) =
      [subLeadZero] := by
  decide

/-- C1 (amended): an active, autopay-enabled subscription with expiry `E` is
selected iff `now ≥ E - D' * 86400`, where the effective lead `D'`
(`days_before_of`) is the stored lead-time when set and nonzero, and 3 days
when the column is unset **or set to zero**; in particular it is not selected
one second before that threshold and is selected at the threshold. -/
theorem c1_selector_threshold (table : List Subscription) (sub : Subscription)
    (e : Int) (hst : sub.status = .active) (hap : sub.autopay_enabled = true)
    (hexp : sub.expires_at = some e) (hmem : sub ∈ table) :
    (∀ now : Int,
      sub ∈ get_subscriptions_for_recurring table now ↔
        e - days_before_of sub.autopay_days_before * 86400 ≤ now) ∧
    sub ∉ get_subscriptions_for_recurring table
        (e - days_before_of sub.autopay_days_before * 86400 - 1) ∧
    sub ∈ get_subscriptions_for_recurring table
        (e - days_before_of sub.autopay_days_before * 86400) := by
  have hiff : ∀ now : Int,
      sub ∈ get_subscriptions_for_recurring table now ↔
        e - days_before_of sub.autopay_days_before * 86400 ≤ now := by
    intro now
    simp [get_subscriptions_for_recurring, List.mem_filter, recurringQueryFilter,
      leadTimeFilter, hst, hap, hexp, hmem]
  refine ⟨hiff, ?_, ?_⟩
  · rw [hiff]
    omega
  · rw [hiff]

/-- An active, autopay-enabled subscription with a 5-day lead used to witness
the amended C1 at both threshold endpoints. -/
def subLeadFive : Subscription :=
  ⟨2, none, .active, some 1000000, true, some 5, none⟩

/-- Witness for the amended C1 at a concrete subscription: not selected one
second before `E - 5 days`, selected exactly at `E - 5 days`. -/
theorem c1_selector_threshold_witness :
    subLeadFive.status = .active ∧
    subLeadFive.autopay_enabled = true ∧
    subLeadFive.expires_at = some 1000000 ∧
    subLeadFive ∈ [subLeadFive] ∧
    subLeadFive ∉ get_subscriptions_for_recurring [subLeadFive] 567999 ∧
    subLeadFive ∈ get_subscriptions_for_recurring [subLeadFive] 568000 := by
  have h := c1_selector_threshold [subLeadFive] subLeadFive 1000000 rfl rfl rfl
    (List.mem_singleton.mpr rfl)
  refine ⟨rfl, rfl, rfl, List.mem_singleton.mpr rfl, ?_, ?_⟩
  · have := h.2.1
    simpa [subLeadFive, days_before_of] using this
  · have := h.2.2
    simpa [subLeadFive, days_before_of] using this

/-- Pointwise sum of two counter dictionaries (proof-only helper). -/
def addStats (a b : RunStats) : RunStats :=
  ⟨a.checked + b.checked, a.charged + b.charged, a.no_method + b.no_method,
   a.failed + b.failed, a.skipped + b.skipped⟩

lemma addStats_zero_right (s : RunStats) : addStats s ⟨0, 0, 0, 0, 0⟩ = s := by
  cases s
  simp [addStats]

lemma addStats_assoc (a b c : RunStats) :
    addStats (addStats a b) c = addStats a (addStats b c) := by
  simp [addStats, Nat.add_assoc]

lemma classify_eq_add (s : RunStats) (r : Except Unit String) :
    classify s r = addStats s (classify ⟨0, 0, 0, 0, 0⟩ r) := by
  cases s
  cases r with
  | error e => simp [classify, addStats]
  | ok v =>
    simp only [classify]
    split_ifs <;> simp [addStats]

lemma classify_checked (s : RunStats) (r : Except Unit String) :
    (classify s r).checked = s.checked := by
  cases r with
  | error e => rfl
  | ok v =>
    simp only [classify]
    split_ifs <;> rfl

/-- The total count of classified outcomes in a statistics dictionary. -/
def outcomesSum (s : RunStats) : Nat :=
  s.charged + s.no_method + s.failed + s.skipped

lemma classify_outcomesSum (s : RunStats) (r : Except Unit String) :
    outcomesSum (classify s r) = outcomesSum s + 1 := by
  cases r with
  | error e => simp [classify, outcomesSum]; omega
  | ok v =>
    simp only [classify]
    split_ifs <;> simp [outcomesSum] <;> omega

/-- The processing loop started from the zero accumulator (the contribution
of a sublist of eligible subscriptions). -/
def passFrom (env : Env) (subs : List Subscription) : PassResult :=
  processLoop env subs ⟨⟨0, 0, 0, 0, 0⟩, [], []⟩

lemma processLoop_acc (env : Env) : ∀ (subs : List Subscription) (s : RunStats)
    (ns : List NotifyEvent) (cs : List ChargeCall),
    processLoop env subs ⟨s, ns, cs⟩ =
      ⟨addStats s (passFrom env subs).stats,
       ns ++ (passFrom env subs).notifications,
       cs ++ (passFrom env subs).charge_calls⟩ := by
  intro subs
  induction subs with
  | nil =>
    intro s ns cs
    simp [processLoop, passFrom, addStats_zero_right]
  | cons sub rest ih =>
    intro s ns cs
    simp only [processLoop, passFrom]
    rw [ih, ih]
    simp [classify_eq_add s, addStats_assoc, List.append_assoc]

lemma passFrom_cons (env : Env) (sub : Subscription) (l : List Subscription) :
    passFrom env (sub :: l) =
      ⟨addStats (classify ⟨0, 0, 0, 0, 0⟩ (process_single_recurring env sub).outcome)
          (passFrom env l).stats,
       (process_single_recurring env sub).notifications ++ (passFrom env l).notifications,
       (process_single_recurring env sub).charge_calls ++ (passFrom env l).charge_calls⟩ := by
  simp only [passFrom, processLoop]
  rw [processLoop_acc]
  simp [passFrom]

lemma processLoop_append (env : Env) (l1 l2 : List Subscription) :
    ∀ acc : PassResult,
      processLoop env (l1 ++ l2) acc = processLoop env l2 (processLoop env l1 acc) := by
  induction l1 with
  | nil => intro acc; simp [processLoop]
  | cons sub rest ih =>
    intro acc
    simp only [List.cons_append, processLoop]
    exact ih _

lemma passFrom_append (env : Env) (l1 l2 : List Subscription) :
    passFrom env (l1 ++ l2) =
      ⟨addStats (passFrom env l1).stats (passFrom env l2).stats,
       (passFrom env l1).notifications ++ (passFrom env l2).notifications,
       (passFrom env l1).charge_calls ++ (passFrom env l2).charge_calls⟩ := by
  rw [passFrom, processLoop_append]
  exact processLoop_acc env l2 (passFrom env l1).stats
    (passFrom env l1).notifications (passFrom env l1).charge_calls

lemma process_recurring_charges_ok (env : Env) (subs : List Subscription) :
    process_recurring_charges env (.ok subs) =
      ⟨addStats ⟨subs.length, 0, 0, 0, 0⟩ (passFrom env subs).stats,
       (passFrom env subs).notifications,
       (passFrom env subs).charge_calls⟩ := by
  simp only [process_recurring_charges]
  rw [processLoop_acc]
  simp

lemma passFrom_checked (env : Env) (subs : List Subscription) :
    (passFrom env subs).stats.checked = 0 := by
  induction subs with
  | nil => rfl
  | cons sub rest ih =>
    rw [passFrom_cons]
    show (addStats _ _).checked = 0
    simp [addStats, classify_checked, ih]

lemma outcomesSum_addStats (a b : RunStats) :
    outcomesSum (addStats a b) = outcomesSum a + outcomesSum b := by
  simp [outcomesSum, addStats]
  omega

lemma passFrom_outcomesSum (env : Env) (subs : List Subscription) :
    outcomesSum (passFrom env subs).stats = subs.length := by
  induction subs with
  | nil => rfl
  | cons sub rest ih =>
    rw [passFrom_cons]
    show outcomesSum (addStats _ _) = _
    rw [outcomesSum_addStats, classify_outcomesSum, ih]
    simp [outcomesSum]
    omega

/-- C3: however the items of a pass behave (any gateway, any tables, any raise
pattern), the statistics of `process_recurring_charges` over `N` eligible
subscriptions report `checked = N`, and the four outcome counters sum to `N`
— each item lands in exactly one of charged / no_method / failed / skipped. -/
theorem c3_run_statistics_partition (env : Env) (subs : List Subscription) :
    (process_recurring_charges env (.ok subs)).stats.checked = subs.length ∧
    (process_recurring_charges env (.ok subs)).stats.charged +
      (process_recurring_charges env (.ok subs)).stats.no_method +
      (process_recurring_charges env (.ok subs)).stats.failed +
      (process_recurring_charges env (.ok subs)).stats.skipped = subs.length := by
  rw [process_recurring_charges_ok]
  constructor
  · show subs.length + (passFrom env subs).stats.checked = subs.length
    rw [passFrom_checked]
    omega
  · have h := passFrom_outcomesSum env subs
    simp only [outcomesSum] at h
    show 0 + (passFrom env subs).stats.charged +
        (0 + (passFrom env subs).stats.no_method) +
        (0 + (passFrom env subs).stats.failed) +
        (0 + (passFrom env subs).stats.skipped) = subs.length
    omega

/-- A user with a Telegram identity, owner of the method below. -/
def userA : User := ⟨10, some 500⟩

/-- An active saved payment method belonging to `userA`. -/
def methodA : YooKassaSavedPaymentMethod :=
  ⟨100, 10, "pm-a", none, none, none, none, none, none, none, true, 1000, 1000, none⟩

/-- An eligible subscription of `userA` with no tariff (the configured
30-day fallback price applies). -/
def subA : Subscription := ⟨3, some userA, .active, some 864000, true, none, none⟩

/-- An environment whose charge gateway always raises. -/
def envRaise : Env := ⟨[methodA], fun _ => none, 30000, fun _ _ _ => .error ()⟩

/-- C2 counterexample: with a charge executor that raises, the pass counts
the subscription as `failed` but sends **zero** notifications — the claimed
"exactly one failure notification" is not sent, because the exception skips
`_notify_recurring_failure` and is only caught by the loop-level `except`. -/
theorem c2_raise_sends_no_notification_counterexample :
    (process_recurring_charges envRaise (.ok [subA])).stats.failed = 1 ∧
    (process_recurring_charges envRaise (.ok [subA])).notifications = [] ∧
    (process_recurring_charges envRaise (.ok [subA])).charge_calls =
      [⟨10, 100, 30000⟩] := by
  decide

/-- C2 (amended): when the charge executor raises for an eligible
subscription, the gateway was called once, the outcome is an escaped
exception counted as `failed` (the failed counter increments by one), **no**
notification is sent for that subscription, and the pass still processes
every preceding and subsequent subscription (their counters, notifications
and gateway calls are unaffected). -/
theorem c2_executor_raises_failed_and_continues (env : Env) (sub : Subscription)
    (u : User) (m : YooKassaSavedPaymentMethod)
    (ms : List YooKassaSavedPaymentMethod) (a : Int)
    (l1 l2 : List Subscription)
    (hu : sub.user = some u)
    (hm : get_active_saved_methods env.methods_table u.id = m :: ms)
    (hc : calculate_renewal_cost env sub = some a) (hpos : 0 < a)
    (hraise : env.create_recurring_charge u.id m.id a = .error ()) :
    process_single_recurring env sub = ⟨.error (), [], [⟨u.id, m.id, a⟩]⟩ ∧
    (process_recurring_charges env (.ok (l1 ++ sub :: l2))).stats.failed =
      (process_recurring_charges env (.ok l1)).stats.failed + 1 +
        (process_recurring_charges env (.ok l2)).stats.failed ∧
    (process_recurring_charges env (.ok (l1 ++ sub :: l2))).notifications =
      (process_recurring_charges env (.ok l1)).notifications ++
        (process_recurring_charges env (.ok l2)).notifications ∧
    (process_recurring_charges env (.ok (l1 ++ sub :: l2))).charge_calls =
      (process_recurring_charges env (.ok l1)).charge_calls ++
        ⟨u.id, m.id, a⟩ :: (process_recurring_charges env (.ok l2)).charge_calls := by
  have hitem : process_single_recurring env sub = ⟨.error (), [], [⟨u.id, m.id, a⟩]⟩ := by
    simp [process_single_recurring, hu, hm, hc, hraise, not_le.mpr hpos]
  have hmid : passFrom env (l1 ++ sub :: l2) =
      ⟨addStats (passFrom env l1).stats
          (addStats ⟨0, 0, 0, 1, 0⟩ (passFrom env l2).stats),
       (passFrom env l1).notifications ++ (passFrom env l2).notifications,
       (passFrom env l1).charge_calls ++
         (⟨u.id, m.id, a⟩ :: (passFrom env l2).charge_calls)⟩ := by
    rw [passFrom_append, passFrom_cons, hitem]
    rfl
  refine ⟨hitem, ?_, ?_, ?_⟩
  · rw [process_recurring_charges_ok, process_recurring_charges_ok,
      process_recurring_charges_ok, hmid]
    show 0 + ((passFrom env l1).stats.failed + (1 + (passFrom env l2).stats.failed)) =
      0 + (passFrom env l1).stats.failed + 1 + (0 + (passFrom env l2).stats.failed)
    omega
  · rw [process_recurring_charges_ok, process_recurring_charges_ok,
      process_recurring_charges_ok, hmid]
  · rw [process_recurring_charges_ok, process_recurring_charges_ok,
      process_recurring_charges_ok, hmid]

/-- Witness for the amended C2 at concrete inputs: `envRaise` raises on every
charge, `subA` is the failing item between two other eligible items. -/
theorem c2_executor_raises_failed_and_continues_witness :
    subA.user = some userA ∧
    get_active_saved_methods envRaise.methods_table userA.id = [methodA] ∧
    calculate_renewal_cost envRaise subA = some 30000 ∧
    (0 : Int) < 30000 ∧
    envRaise.create_recurring_charge userA.id methodA.id 30000 = .error () ∧
    process_single_recurring envRaise subA = ⟨.error (), [], [⟨10, 100, 30000⟩]⟩ := by
  have h := c2_executor_raises_failed_and_continues envRaise subA userA methodA []
    30000 [] [] (by decide) (by decide) (by decide) (by decide) (by decide)
  exact ⟨by decide, by decide, by decide, by decide, by decide, h.1⟩

/-- C4: when the gateway returns a result whose `status` is `'succeeded'`,
the item yields outcome `charged` with exactly one success notification and
exactly one gateway call, and classifying `'charged'` bumps the `charged`
counter by one leaving every other counter unchanged. -/
theorem c4_succeeded_charged (env : Env) (sub : Subscription) (u : User)
    (m : YooKassaSavedPaymentMethod) (ms : List YooKassaSavedPaymentMethod)
    (a : Int) (r : ChargeResult)
    (hu : sub.user = some u)
    (hm : get_active_saved_methods env.methods_table u.id = m :: ms)
    (hc : calculate_renewal_cost env sub = some a) (hpos : 0 < a)
    (hres : env.create_recurring_charge u.id m.id a = .ok (some r))
    (hst : r.status = some "succeeded") :
    process_single_recurring env sub =
      ⟨.ok "charged", [.recurring_success u.id a], [⟨u.id, m.id, a⟩]⟩ ∧
    ∀ s : RunStats, classify s (.ok "charged") = { s with charged := s.charged + 1 } := by
  constructor
  · simp [process_single_recurring, hu, hm, hc, hres, hst, not_le.mpr hpos]
  · intro s
    rfl

/-- An environment whose charge gateway always reports `'succeeded'`. -/
def envSucceed : Env :=
  ⟨[methodA], fun _ => none, 30000, fun _ _ _ => .ok (some ⟨some "succeeded"⟩)⟩

/-- Witness for C4 on concrete data. -/
theorem c4_succeeded_charged_witness :
    subA.user = some userA ∧
    get_active_saved_methods envSucceed.methods_table userA.id = [methodA] ∧
    calculate_renewal_cost envSucceed subA = some 30000 ∧
    (0 : Int) < 30000 ∧
    envSucceed.create_recurring_charge userA.id methodA.id 30000 =
      .ok (some ⟨some "succeeded"⟩) ∧
    process_single_recurring envSucceed subA =
      ⟨.ok "charged", [.recurring_success 10 30000], [⟨10, 100, 30000⟩]⟩ ∧
    classify ⟨7, 1, 2, 3, 4⟩ (.ok "charged") = ⟨7, 2, 2, 3, 4⟩ := by
  have h := c4_succeeded_charged envSucceed subA userA methodA [] 30000
    ⟨some "succeeded"⟩ (by decide) (by decide) (by decide) (by decide)
    (by decide) (by decide)
  exact ⟨by decide, by decide, by decide, by decide, by decide, h.1,
    by rw [h.2 ⟨7, 1, 2, 3, 4⟩]⟩

/-- C5: when the owning user has zero active saved methods, the item yields
outcome `no_method`, exactly one "no payment method" notification, and the
charge gateway is never invoked. -/
theorem c5_no_method_notifies_without_charge (env : Env) (sub : Subscription)
    (u : User) (hu : sub.user = some u)
    (hm : get_active_saved_methods env.methods_table u.id = []) :
    process_single_recurring env sub =
      ⟨.ok "no_method", [.no_payment_method u.id], []⟩ := by
  simp [process_single_recurring, hu, hm]

/-- An environment with an empty saved-payment-method table. -/
def envNoMethods : Env := ⟨[], fun _ => none, 30000, fun _ _ _ => .ok none⟩

/-- Witness for C5 on concrete data. -/
theorem c5_no_method_notifies_without_charge_witness :
    subA.user = some userA ∧
    get_active_saved_methods envNoMethods.methods_table userA.id = [] ∧
    process_single_recurring envNoMethods subA =
      ⟨.ok "no_method", [.no_payment_method 10], []⟩ := by
  have h := c5_no_method_notifies_without_charge envNoMethods subA userA
    (by decide) (by decide)
  exact ⟨by decide, by decide, h⟩

/-- C7: when the renewal cost comes back as `None` or non-positive, the item
yields outcome `skipped`, no gateway call is made and no notification of any
kind is attempted. -/
theorem c7_bad_price_skipped (env : Env) (sub : Subscription) (u : User)
    (m : YooKassaSavedPaymentMethod) (ms : List YooKassaSavedPaymentMethod)
    (hu : sub.user = some u)
    (hm : get_active_saved_methods env.methods_table u.id = m :: ms)
    (hc : calculate_renewal_cost env sub = none ∨
      ∃ a, calculate_renewal_cost env sub = some a ∧ a ≤ 0) :
    process_single_recurring env sub = ⟨.ok "skipped", [], []⟩ := by
  rcases hc with hc | ⟨a, hc, ha⟩
  · simp [process_single_recurring, hu, hm, hc]
  · simp [process_single_recurring, hu, hm, hc, ha]

/-- An environment whose configured 30-day fallback price is zero, so the
price calculator yields `None` for tariff-less subscriptions. -/
def envZeroPrice : Env := ⟨[methodA], fun _ => none, 0, fun _ _ _ => .ok none⟩

/-- Witness for C7 on concrete data. -/
theorem c7_bad_price_skipped_witness :
    subA.user = some userA ∧
    get_active_saved_methods envZeroPrice.methods_table userA.id = [methodA] ∧
    calculate_renewal_cost envZeroPrice subA = none ∧
    process_single_recurring envZeroPrice subA = ⟨.ok "skipped", [], []⟩ := by
  have h := c7_bad_price_skipped envZeroPrice subA userA methodA []
    (by decide) (by decide) (Or.inl (by decide))
  exact ⟨by decide, by decide, by decide, h⟩

lemma perm_pair_cases {α : Type} {a b : α} {l : List α} (h : l.Perm [a, b]) :
    l = [a, b] ∨ l = [b, a] := by
  cases l with
  | nil => have := h.length_eq; simp at this
  | cons x t =>
    cases t with
    | nil => have := h.length_eq; simp at this
    | cons y t2 =>
      cases t2 with
      | cons z t3 => have := h.length_eq; simp at this
      | nil =>
        have hx : x = a ∨ x = b := by
          simpa using h.subset (show x ∈ [x, y] by simp)
        rcases hx with rfl | rfl
        · left
          have hy : y = b := by simpa [List.perm_singleton] using h.cons_inv
          rw [hy]
        · right
          have h2 : List.Perm [x, y] [x, a] :=
            h.trans (List.Perm.swap x a [])
          have hy : y = a := by simpa [List.perm_singleton] using h2.cons_inv
          rw [hy]

lemma charge_target_is_head (env : Env) (sub : Subscription) (u : User)
    (m : YooKassaSavedPaymentMethod) (ms : List YooKassaSavedPaymentMethod)
    (a : Int) (hu : sub.user = some u)
    (hm : get_active_saved_methods env.methods_table u.id = m :: ms)
    (hc : calculate_renewal_cost env sub = some a) (hpos : 0 < a) :
    (process_single_recurring env sub).charge_calls = [⟨u.id, m.id, a⟩] := by
  simp only [process_single_recurring, hu, hm, hc]
  rw [if_neg (not_le.mpr hpos)]
  cases hr : env.create_recurring_charge u.id m.id a with
  | error e => rfl
  | ok result =>
    cases result with
    | none => rfl
    | some r =>
      dsimp only
      split <;> rfl

/-- C6: for a user whose active instruments are exactly two records created
at `t1 < t2`, the instrument resolver puts the `t2` instrument at index 0
(newest first), and any charge the scheduler then makes targets that
instrument's id. -/
theorem c6_newest_instrument_charged (env : Env) (sub : Subscription) (u : User)
    (m1 m2 : YooKassaSavedPaymentMethod) (a : Int)
    (hu : sub.user = some u)
    (hperm : (env.methods_table.filter
        (fun m => m.user_id == u.id && m.is_active)).Perm [m1, m2])
    (ht : m1.created_at < m2.created_at)
    (hc : calculate_renewal_cost env sub = some a) (hpos : 0 < a) :
    get_active_saved_methods env.methods_table u.id = [m2, m1] ∧
    (process_single_recurring env sub).charge_calls = [⟨u.id, m2.id, a⟩] := by
  have hsorted := List.sorted_insertionSort newestFirst
    (env.methods_table.filter (fun m => m.user_id == u.id && m.is_active))
  have hp : (List.insertionSort newestFirst
      (env.methods_table.filter (fun m => m.user_id == u.id && m.is_active))).Perm
      [m1, m2] :=
    (List.perm_insertionSort newestFirst _).trans hperm
  have hms : get_active_saved_methods env.methods_table u.id = [m2, m1] := by
    rcases perm_pair_cases hp with heq | heq
    · exfalso
      rw [heq] at hsorted
      have hle : newestFirst m1 m2 := (List.sorted_cons.mp hsorted).1 m2 (by simp)
      exact absurd hle (not_le.mpr ht)
    · exact heq
  exact ⟨hms, charge_target_is_head env sub u m2 [m1] a hu hms hc hpos⟩

/-- First (older) saved instrument of user 10, created at time 100. -/
def methodOld : YooKassaSavedPaymentMethod :=
  ⟨101, 10, "pm-old", none, none, none, none, none, none, none, true, 100, 100, none⟩

/-- Second (newer) saved instrument of user 10, created at time 200. -/
def methodNew : YooKassaSavedPaymentMethod :=
  ⟨102, 10, "pm-new", none, none, none, none, none, none, none, true, 200, 200, none⟩

/-- An environment whose method table stores the older instrument first. -/
def envTwoMethods : Env :=
  ⟨[methodOld, methodNew], fun _ => none, 30000, fun _ _ _ => .ok none⟩

/-- Witness for C6 on concrete data: the instrument created later ends up at
index 0 and is the charge target. -/
theorem c6_newest_instrument_charged_witness :
    subA.user = some userA ∧
    (envTwoMethods.methods_table.filter
      (fun m => m.user_id == userA.id && m.is_active)).Perm [methodOld, methodNew] ∧
    methodOld.created_at < methodNew.created_at ∧
    calculate_renewal_cost envTwoMethods subA = some 30000 ∧
    (0 : Int) < 30000 ∧
    get_active_saved_methods envTwoMethods.methods_table userA.id =
      [methodNew, methodOld] ∧
    (process_single_recurring envTwoMethods subA).charge_calls =
      [⟨10, 102, 30000⟩] := by
  have h := c6_newest_instrument_charged envTwoMethods subA userA methodOld
    methodNew 30000 (by decide) (by decide) (by decide) (by decide) (by decide)
  exact ⟨by decide, by decide, by decide, by decide, by decide, h.1, h.2⟩

/-- C8: when the eligibility selector's query raises, the outer `except` of
`process_recurring_charges` swallows it: the pass returns (it cannot
propagate an exception — its type is a plain `PassResult`) with the
statistics accumulated so far, which are all zero since the failure precedes
every item, and no notification or gateway call was made. -/
theorem c8_selector_failure_swallowed (env : Env) :
    process_recurring_charges env (.error ()) = ⟨⟨0, 0, 0, 0, 0⟩, [], []⟩ := rfl

/-- At most one stored record per gateway token (the UNIQUE column of
migration `0005`). -/
def tokensUnique (table : List YooKassaSavedPaymentMethod) : Prop :=
  table.Pairwise (fun x y => x.payment_method_id ≠ y.payment_method_id)

lemma filter_token_unique (t : String) :
    ∀ l : List YooKassaSavedPaymentMethod, tokensUnique l →
    ∀ x ∈ l, x.payment_method_id = t →
    l.filter (fun m => m.payment_method_id == t) = [x] := by
  intro l
  induction l with
  | nil => intro _ x hx; simp at hx
  | cons y ys ih =>
    intro hpw x hx hxt
    rw [tokensUnique, List.pairwise_cons] at hpw
    rcases List.mem_cons.mp hx with rfl | hx2
    · rw [List.filter_cons, if_pos (by simp [hxt])]
      have hnil : ys.filter (fun m => m.payment_method_id == t) = [] := by
        rw [List.filter_eq_nil_iff]
        intro b hb
        have hne := hpw.1 b hb
        simp only [beq_iff_eq]
        rw [hxt] at hne
        exact fun hc => hne hc.symm
      rw [hnil]
    · have hyt : ¬(y.payment_method_id == t) = true := by
        have hne := hpw.1 x hx2
        simp only [beq_iff_eq]
        rw [hxt] at hne
        exact hne
      rw [List.filter_cons, if_neg hyt]
      exact ih hpw.2 x hx2 hxt

/-- C9: under the token-uniqueness invariant, creating a saved method keeps
the invariant (the UNIQUE constraint rejects the duplicate insert, rolled
back with the table unchanged), and when the token is already stored the
call returns the existing record for that token without inserting. -/
theorem c9_token_unique_create (table : List YooKassaSavedPaymentMethod)
    (uid : Int) (pmid : String) (pmt c6 c4f ct cem cey ttl : Option String)
    (spid : Option Int) (newId now : Int)
    (huniq : tokensUnique table) :
    tokensUnique (create_saved_payment_method table uid pmid pmt c6 c4f ct
        cem cey ttl spid newId now).1 ∧
    ∀ existing ∈ table, existing.payment_method_id = pmid →
      create_saved_payment_method table uid pmid pmt c6 c4f ct cem cey ttl
          spid newId now = (table, .ok (some existing)) := by
  constructor
  · by_cases hdup : table.any (fun m => m.payment_method_id == pmid)
    · simp only [create_saved_payment_method, if_pos hdup]
      exact huniq
    · simp only [create_saved_payment_method, if_neg hdup]
      rw [tokensUnique, List.pairwise_append]
      refine ⟨huniq, List.pairwise_singleton _ _, ?_⟩
      intro x hx b hb
      simp only [List.mem_singleton] at hb
      subst hb
      intro hc
      exact hdup (List.any_eq_true.mpr ⟨x, hx, by simp [hc]⟩)
  · intro existing hmem heq
    have hdup : table.any (fun m => m.payment_method_id == pmid) = true :=
      List.any_eq_true.mpr ⟨existing, hmem, by simp [heq]⟩
    simp only [create_saved_payment_method, if_pos hdup]
    rw [show get_saved_method_by_payment_method_id table pmid =
        .ok (some existing) from ?_]
    · rw [get_saved_method_by_payment_method_id,
        filter_token_unique pmid table huniq existing hmem heq]

/-- Witness for C9: re-creating the already-stored token `pm-a` leaves the
table unchanged and returns the existing record. -/
theorem c9_token_unique_create_witness :
    tokensUnique [methodA] ∧
    methodA ∈ [methodA] ∧
    create_saved_payment_method [methodA] 99 "pm-a" none none none none none
        none none none 777 5000 = ([methodA], .ok (some methodA)) := by
  have huniq : tokensUnique [methodA] := List.pairwise_singleton _ _
  have h := (c9_token_unique_create [methodA] 99 "pm-a" none none none none
    none none none none 777 5000 huniq).2 methodA (List.mem_singleton.mpr rfl) rfl
  exact ⟨huniq, List.mem_singleton.mpr rfl, h⟩

/-- C10: the cabinet DELETE route deactivates a saved method only when the
id belongs to an active method of the requesting user.  When no active,
owned record with that id exists (inactive, nonexistent, or another user's),
it returns HTTP 404 with the table untouched; otherwise it returns success,
records with other ids survive unchanged, and the targeted record is
deactivated. -/
theorem c10_delete_route (table : List YooKassaSavedPaymentMethod)
    (u mid now : Int) :
    ((¬ ∃ m ∈ table, m.id = mid ∧ m.user_id = u ∧ m.is_active = true) →
      delete_saved_payment_method table u mid now = (table, .error 404)) ∧
    (∀ m ∈ table, m.id = mid → m.user_id = u → m.is_active = true →
      delete_saved_payment_method table u mid now =
        (deactivate_saved_method table mid now,
         .ok ⟨true, "Payment method successfully unlinked"⟩) ∧
      (∀ r ∈ table, r.id ≠ mid →
        r ∈ (delete_saved_payment_method table u mid now).1) ∧
      { m with is_active := false, updated_at := now } ∈
        (delete_saved_payment_method table u mid now).1) := by
  constructor
  · intro hno
    have hfind : (get_active_saved_methods table u).find?
        (fun m => m.id == mid) = none := by
      rw [List.find?_eq_none]
      intro x hxmem
      have hx : x ∈ table.filter (fun m => m.user_id == u && m.is_active) :=
        (List.perm_insertionSort newestFirst _).mem_iff.mp hxmem
      rw [List.mem_filter] at hx
      intro hbeq
      apply hno
      have hflags := hx.2
      rw [Bool.and_eq_true] at hflags
      exact ⟨x, hx.1, by simpa using hbeq, by simpa using hflags.1, hflags.2⟩
    simp only [delete_saved_payment_method, hfind]
  · intro m hm hid huid hact
    have hmemf : m ∈ table.filter (fun m => m.user_id == u && m.is_active) :=
      List.mem_filter.mpr ⟨hm, by simp [huid, hact]⟩
    have hmem2 : m ∈ get_active_saved_methods table u :=
      (List.perm_insertionSort newestFirst _).mem_iff.mpr hmemf
    obtain ⟨x, hx⟩ : ∃ x, (get_active_saved_methods table u).find?
        (fun m => m.id == mid) = some x :=
      Option.isSome_iff_exists.mp
        (List.find?_isSome.mpr ⟨m, hmem2, by simp [hid]⟩)
    have hdel : delete_saved_payment_method table u mid now =
        (deactivate_saved_method table mid now,
         .ok ⟨true, "Payment method successfully unlinked"⟩) := by
      simp only [delete_saved_payment_method, hx]
    refine ⟨hdel, ?_, ?_⟩
    · intro r hr hrne
      rw [hdel]
      show r ∈ deactivate_saved_method table mid now
      rw [deactivate_saved_method]
      exact List.mem_map.mpr ⟨r, hr, by simp [hrne]⟩
    · rw [hdel]
      show _ ∈ deactivate_saved_method table mid now
      rw [deactivate_saved_method]
      exact List.mem_map.mpr ⟨m, hm, by simp [hid]⟩

/-- Witness for C10: a foreign user gets 404 with the table untouched; the
owner's request succeeds and deactivates the record. -/
theorem c10_delete_route_witness :
    (¬ ∃ m ∈ [methodA], m.id = 100 ∧ m.user_id = 11 ∧ m.is_active = true) ∧
    delete_saved_payment_method [methodA] 11 100 2000 = ([methodA], .error 404) ∧
    methodA ∈ [methodA] ∧
    delete_saved_payment_method [methodA] 10 100 2000 =
      (deactivate_saved_method [methodA] 100 2000,
       .ok ⟨true, "Payment method successfully unlinked"⟩) := by
  have h1 := (c10_delete_route [methodA] 11 100 2000).1 (by decide)
  have h2 := ((c10_delete_route [methodA] 10 100 2000).2 methodA
    (List.mem_singleton.mpr rfl) rfl rfl rfl).1
  exact ⟨by decide, h1, List.mem_singleton.mpr rfl, h2⟩

end RecurringBot
